import Mathlib

/-!
Verification of the BDOC XAdES signature-validation engine
(`ivote-server/pybdoc/src/Signature.cpp`).

The C++ code is shallowly embedded: the xsd-generated schema-binder
objects become plain Lean structures, `std::string` becomes `List Char`
(with `find`/`rfind`/`substr` modelled including their `size_t`
wrap-around semantics), `std::vector<unsigned char>` becomes `List Nat`,
and every external collaborator (digest registry, canonicalizer, X509
library, OCSP client, configuration, container manifest) is a field of an
explicit environment record.  A `THROW_STACK_EXCEPTION` site becomes a
`.thrown` outcome; an unguarded dereference of an absent xsd optional or
an out-of-bounds `[0]` on an xsd sequence (undefined behaviour in the
generated binder) becomes the distinguished outcome `.ub`.
-/

namespace bdoc

/-- Byte strings (`std::string` viewed character by character; all the
strings the code manipulates are ASCII so characters and bytes agree). -/
abbrev Str := List Char

/-- `std::string::npos` on a 64-bit platform. -/
def NPOS : Nat := 2 ^ 64 - 1

/-- `2^64`: modulus of `size_t` arithmetic. -/
def SIZE_MOD : Nat := 2 ^ 64

/-- Whether `pat` occurs in `l` starting at position `i`. -/
def occursAt (l pat : Str) (i : Nat) : Bool :=
  pat.isPrefixOf (l.drop i)

/-- First index of `pat` in `l` (`std::string::find` relative to the
start of the searched suffix): `some k` for the least match position. -/
def findInList (l pat : Str) : Option Nat :=
  match l with
  | [] => if pat.isEmpty then some 0 else none
  | _ :: tl =>
    if pat.isPrefixOf l then some 0
    else (findInList tl pat).map (· + 1)

/-- `s.find(pat, start)`: least match position `≥ start`, else `NPOS`. -/
def strFindFrom (s pat : Str) (start : Nat) : Nat :=
  if start ≤ s.length then
    match findInList (s.drop start) pat with
    | some k => start + k
    | none => NPOS
  else NPOS

/-- Last match position of `pat` in `l`, if any (`std::string::rfind`). -/
def rfindInList (l pat : Str) : Option Nat :=
  match l with
  | [] => if pat.isEmpty then some 0 else none
  | _ :: tl =>
    match rfindInList tl pat with
    | some k => some (k + 1)
    | none => if pat.isPrefixOf l then some 0 else none

/-- `s.rfind(pat)`: greatest match position, else `NPOS`. -/
def strRfind (s pat : Str) : Nat :=
  (rfindInList s pat).getD NPOS

/-- `s.substr(pos, count)`: `count` characters starting at `pos`
(clamped at the end of the string; `pos > size` raises
`std::out_of_range`, which the caller models as a thrown outcome). -/
def substrC (s : Str) (pos count : Nat) : Str :=
  (s.drop pos).take count

/-- Error kinds, one per `THROW_STACK_EXCEPTION` message in the source. -/
inductive Err where
  | objectMissing
  | objectMultiple
  | qpMissing
  | qpMultiple
  | signerCertMissing
  | signerCertMultiple
  | idMissing
  | idEmpty
  | unsupportedSignatureMethod
  | refCountInvalid
  | multipleSigPropsRefs
  | noSigPropsRef
  | sigPropsRefNoURI
  | sigPropsDigestUnsupported
  | sigPropsDigestLength
  | sigPropsDigestMismatch
  | docRefNoURI
  | docRefsMismatch
  | nodeNotFound
  | nodeMultiple
  | unsupportedCanonMethod
  | parseFailed
  | keyInfoObjectCount
  | keyInfoQPCount
  | signedPropsNotFound
  | signingCertNotFound
  | signingCertCount
  | certDigestUnsupported
  | issuerInfoInvalid
  | certDigestLength
  | certDigestMismatch
  | hashMethodExtractFailed
  | unsupportedDigest
  | signatureInvalid
  | certVerifyFailed
  | qpCountInvalid
  | qpTargetInvalid
  | signaturePolicyInvalid
  | unexpectedUDOP
  | signedPropsMissing
  | missingUnsignedProps
  | missingUnsignedSigProps
  | missingRevocationValues
  | missingDigestAlgAndValue
  | noOCSPResponder
  | issuerUnknown
  | stdOutOfRange
  | ocspVerifyFailed
  | nonceMismatch
  | ocspRefMismatch
  deriving DecidableEq, Repr

/-- Result of running a piece of the C++ code: normal return, a thrown
exception, or undefined behaviour (unguarded dereference of an absent
xsd optional / out-of-bounds index into an xsd sequence). -/
inductive Outcome (ε : Type) (α : Type) where
  | ok : α → Outcome ε α
  | thrown : ε → Outcome ε α
  | ub : Outcome ε α
  deriving DecidableEq, Repr

def Outcome.bind {ε α β : Type} : Outcome ε α → (α → Outcome ε β) → Outcome ε β
  | .ok a, f => f a
  | .thrown e, _ => .thrown e
  | .ub, _ => .ub

instance {ε : Type} : Monad (Outcome ε) where
  pure := Outcome.ok
  bind := Outcome.bind

@[simp]
theorem Outcome.ok_bind {ε α β : Type} (a : α) (f : α → Outcome ε β) :
    (Outcome.ok a : Outcome ε α) >>= f = f a := rfl

@[simp]
theorem Outcome.thrown_bind {ε α β : Type} (e : ε) (f : α → Outcome ε β) :
    (Outcome.thrown e : Outcome ε α) >>= f = .thrown e := rfl

@[simp]
theorem Outcome.ub_bind {ε α β : Type} (f : α → Outcome ε β) :
    (Outcome.ub : Outcome ε α) >>= f = .ub := rfl

theorem Outcome.bind_eq_ok {ε α β : Type} {x : Outcome ε α}
    {f : α → Outcome ε β} {b : β} :
    x >>= f = .ok b ↔ ∃ a, x = .ok a ∧ f a = .ok b := by
  cases x <;> simp [Outcome.bind, Bind.bind]

/-! ## Schema model

Lean images of the xsd-generated binder types actually read by the code
(`dsig::SignatureType` and the XAdES v1.1.1 / v1.3.2 property trees).
Optional elements are `Option`, sequences are `List`; `base64Binary`
blobs are byte lists. -/

/-- Opaque content of a `SignaturePolicyIdentifier` element (read by the
code, never inspected). -/
abbrev PolicyId := Nat

/-- `DigestAlgAndValueType` / `CertDigest`: a `DigestMethod` algorithm
URI together with a `DigestValue`. -/
structure DigestAlgAndValue where
  digestMethodAlgorithm : Str
  digestValue : List Nat
  deriving DecidableEq, Repr

structure OCSPIdentifier where
  producedAt : Str
  deriving DecidableEq, Repr

structure OCSPRef where
  ocspIdentifier : OCSPIdentifier
  digestAlgAndValue : Option DigestAlgAndValue
  deriving DecidableEq, Repr

structure OCSPRefs where
  ocspRef : List OCSPRef
  deriving DecidableEq, Repr

structure CompleteRevocationRefs where
  ocspRefs : Option OCSPRefs
  deriving DecidableEq, Repr

structure OCSPValues where
  encapsulatedOCSPValue : List (List Nat)
  deriving DecidableEq, Repr

/-- `xades111::RevocationValuesType` (its `OCSPValues` child is optional). -/
structure RevocationValues111 where
  ocspValues : Option OCSPValues
  deriving DecidableEq, Repr

/-- `xades132::RevocationValuesType` (its `OCSPValues` child is optional). -/
structure RevocationValues132 where
  ocspValues : Option OCSPValues
  deriving DecidableEq, Repr

structure IssuerSerial where
  x509IssuerName : Str
  x509SerialNumber : Nat
  deriving DecidableEq, Repr

structure CertID where
  certDigest : DigestAlgAndValue
  issuerSerial : IssuerSerial
  deriving DecidableEq, Repr

structure CertIDList where
  cert : List CertID
  deriving DecidableEq, Repr

/-- `xades111::SignedSignaturePropertiesType`: in v1.1.1 both the
`SigningCertificate` and the `SignaturePolicyIdentifier` are mandatory. -/
structure SSP111 where
  signingCertificate : CertIDList
  signaturePolicyIdentifier : PolicyId
  deriving DecidableEq, Repr

/-- `xades132::SignedSignaturePropertiesType`: in v1.3.2 both children
are optional. -/
structure SSP132 where
  signingCertificate : Option CertIDList
  signaturePolicyIdentifier : Option PolicyId
  deriving DecidableEq, Repr

structure SignedProps111 where
  signedSignatureProperties : SSP111
  deriving DecidableEq, Repr

structure SignedProps132 where
  signedSignatureProperties : SSP132
  deriving DecidableEq, Repr

/-- `xades111::UnsignedSignaturePropertiesType`: optional-single
`RevocationValues` and `CompleteRevocationRefs`. -/
structure USP111 where
  revocationValues : Option RevocationValues111
  completeRevocationRefs : Option CompleteRevocationRefs
  deriving DecidableEq, Repr

/-- `xades132::UnsignedSignaturePropertiesType`: `RevocationValues` and
`CompleteRevocationRefs` are sequences. -/
structure USP132 where
  revocationValues : List RevocationValues132
  completeRevocationRefs : List CompleteRevocationRefs
  deriving DecidableEq, Repr

structure UnsignedProps111 where
  unsignedSignatureProperties : Option USP111
  unsignedDataObjectProperties : Option Unit
  deriving DecidableEq, Repr

structure UnsignedProps132 where
  unsignedSignatureProperties : Option USP132
  unsignedDataObjectProperties : Option Unit
  deriving DecidableEq, Repr

/-- `QualifyingProperties1` (XAdES v1.1.1). -/
structure QP111 where
  target : Str
  signedProperties : Option SignedProps111
  unsignedProperties : Option UnsignedProps111
  deriving DecidableEq, Repr

/-- `QualifyingProperties` (XAdES v1.3.2). -/
structure QP132 where
  target : Str
  signedProperties : Option SignedProps132
  unsignedProperties : Option UnsignedProps132
  deriving DecidableEq, Repr

/-- `dsig::ObjectType`: carries both dialects' property sequences. -/
structure ObjectType where
  qualifyingProperties : List QP132
  qualifyingProperties1 : List QP111
  deriving DecidableEq, Repr

/-- One `ds:Reference` of `SignedInfo`. -/
structure Reference where
  uri : Option Str
  type : Option Str
  digestMethodAlgorithm : Str
  digestValue : List Nat
  deriving DecidableEq, Repr

structure SignedInfo where
  canonicalizationMethodAlgorithm : Str
  signatureMethodAlgorithm : Str
  reference : List Reference
  deriving DecidableEq, Repr

structure X509Data where
  x509Certificate : List (List Nat)
  deriving DecidableEq, Repr

structure KeyInfo where
  x509Data : List X509Data
  deriving DecidableEq, Repr

/-- `dsig::SignatureType`: the parsed `ds:Signature` root. -/
structure SignatureType where
  id : Option Str
  signedInfo : SignedInfo
  signatureValue : List Nat
  keyInfo : Option KeyInfo
  object : List ObjectType
  deriving DecidableEq, Repr

/-- XAdES profile variant: `XAdES111Signature` or `XAdES132Signature`. -/
inductive Dialect where
  | v111
  | v132
  deriving DecidableEq, Repr

/-- A parsed `bdoc::Signature`: variant tag, schema model, and the
original XML byte buffer kept verbatim for canonicalization. -/
structure Sig where
  dialect : Dialect
  sign : SignatureType
  xml : List Nat
  deriving DecidableEq, Repr

/-! ## External collaborators -/

/-- Settings of an `XSECC14n20010315` canonicalizer as configured by
`calcDigestOnNode` (constructor defaults plus the per-algorithm flags). -/
structure CanonSettings where
  comments : Bool
  exclusive : Bool
  inclusivePrefixes : List Str
  inclusive11 : Bool
  useNamespaceStack : Bool
  deriving DecidableEq, Repr

/-- An abstract trust store handle (`bdoc::X509CertStore`). -/
structure X509CertStore where
  id : Nat
  deriving DecidableEq, Repr

/-- One recorded `ContainerInfo::checkDocument(uri, alg, digest)` call. -/
structure DocCheck where
  uri : Str
  alg : Str
  digest : List Nat
  deriving DecidableEq, Repr

/-- The container manifest collaborator: a document count plus the
verdict `checkDocumentsResult` renders on the trace of `checkDocument`
calls recorded since `checkDocumentsBegin`. -/
structure ContainerInfo where
  documentCount : Nat
  resultOf : List DocCheck → Bool

/-- `OCSPConf`: per-issuer OCSP responder configuration. -/
structure OCSPConf where
  url : Str
  cert : Str
  skew : Nat
  maxAge : Nat
  deriving DecidableEq, Repr

/-- The `Configuration` collaborator. -/
structure Conf where
  digestURI : Str
  hasOCSPConf : Str → Bool
  getOCSPConf : Str → OCSPConf
  storeGetCert : Str → Option (List Nat)

/-- The `bdoc::OCSP` client state built by `prepare`, together with the
validator fields (`_signingCert`, `_issuerX509`, `_ocspCerts`) it fills. -/
structure OCSPState where
  url : Str
  skew : Nat
  maxAge : Nat
  ocspCerts : List (List Nat)
  signingCert : List Nat
  issuerX509 : List Nat
  deriving DecidableEq, Repr

/-- The crypto/XML environment: digest registry, canonicalizer, X509
library and OCSP client semantics, all external to `Signature.cpp`. -/
structure Env where
  hashSupported : Str → Bool
  hash : Str → List Nat → List Nat
  hashSize : Str → Nat
  domParseOk : List Nat → Bool
  elemCount : List Nat → Str → Str → Nat
  canon : List Nat → CanonSettings → Str → Str → List Nat
  sigMethodHashURI : Str → Option Str
  verifySig : List Nat → Str → Nat → List Nat → List Nat → Bool
  certVerify : List Nat → X509CertStore → Bool
  getIssuerName : List Nat → Str
  getIssuerNameAsn1 : List Nat → Str
  certSerial : List Nat → Nat
  certDER : List Nat → List Nat
  compareIssuerToString : List Nat → Str → Bool
  loadX509Stack : Str → List (List Nat)
  verifyResponse : OCSPState → List Nat → Bool
  getNonce : OCSPState → List Nat → List Nat

/-! ## Constants -/

def XADES111_NAMESPACE : Str := "http://uri.etsi.org/01903/v1.1.1#".data

def XADES132_NAMESPACE : Str := "http://uri.etsi.org/01903/v1.3.2#".data

def DSIG_NAMESPACE : Str := "http://www.w3.org/2000/09/xmldsig#".data

def URI_ID_RSA_SHA1 : Str := "http://www.w3.org/2000/09/xmldsig#rsa-sha1".data

def URI_ID_RSA_SHA224 : Str :=
  "http://www.w3.org/2001/04/xmldsig-more#rsa-sha224".data

def URI_ID_RSA_SHA256 : Str :=
  "http://www.w3.org/2001/04/xmldsig-more#rsa-sha256".data

def URI_ID_C14N_NOC : Str :=
  "http://www.w3.org/TR/2001/REC-xml-c14n-20010315".data

def URI_ID_C14N_COM : Str :=
  "http://www.w3.org/TR/2001/REC-xml-c14n-20010315#WithComments".data

def URI_ID_EXC_C14N_NOC : Str := "http://www.w3.org/2001/10/xml-exc-c14n#".data

def URI_ID_C14N11_NOC : Str := "http://www.w3.org/2006/12/xml-c14n11".data

def URI_ID_C14N11_COM : Str :=
  "http://www.w3.org/2006/12/xml-c14n11#WithComments".data

/-- The literal `"http://uri.etsi.org/01903"` of `isReferenceToSigProps`. -/
def ETSI_PAT : Str := "http://uri.etsi.org/01903".data

/-- The literal `"#SignedProperties"` of `isReferenceToSigProps`. -/
def SIGPROP_PAT : Str := "#SignedProperties".data

/-- The literal `"CN="` of `SignatureValidator::prepare`. -/
def CN_PAT : Str := "CN=".data

/-! ## Translated source functions -/

/-- `Digest::create(uri)`: succeeds exactly on the registry's supported
URIs, otherwise throws (unsupported algorithm). -/
def digestCreate (env : Env) (uri : Str) : Outcome Err Unit :=
  if env.hashSupported uri then .ok () else .thrown .unsupportedDigest

/-- `bdoc::Signature::parse` after schema validation: cardinality checks
on `Object` and the two `QualifyingProperties` dialects, then variant
construction preserving the original byte buffer. -/
def parse (st : SignatureType) (xml : List Nat) : Outcome Err Sig :=
  match st.object with
  | [] => .thrown .objectMissing
  | [o] =>
    if o.qualifyingProperties.isEmpty && o.qualifyingProperties1.isEmpty then
      .thrown .qpMissing
    else if o.qualifyingProperties.isEmpty && !o.qualifyingProperties1.isEmpty then
      if o.qualifyingProperties1.length ≠ 1 then .thrown .qpMultiple
      else .ok ⟨Dialect.v111, st, xml⟩
    else if !o.qualifyingProperties.isEmpty && o.qualifyingProperties1.isEmpty then
      if o.qualifyingProperties.length ≠ 1 then .thrown .qpMultiple
      else .ok ⟨Dialect.v132, st, xml⟩
    else .thrown .qpMultiple
  | _ :: _ :: _ => .thrown .objectMultiple

/-- `Signature::getSignatureValue`. -/
def getSignatureValue (st : SignatureType) : List Nat :=
  st.signatureValue

/-- `Signature::getSigningX509CertificateType`: the unique
`KeyInfo/X509Data/X509Certificate` block. -/
def getSigningX509CertificateType (st : SignatureType) : Outcome Err (List Nat) :=
  match st.keyInfo with
  | none => .thrown .signerCertMissing
  | some ki =>
    match ki.x509Data with
    | [] => .thrown .signerCertMissing
    | [xd] =>
      match xd.x509Certificate with
      | [] => .thrown .signerCertMissing
      | [c] => .ok c
      | _ :: _ :: _ => .thrown .signerCertMultiple
    | _ :: _ :: _ => .thrown .signerCertMultiple

/-- `Signature::getSigningCertificate` (the `X509Cert` wrapper is
abstract: a certificate is its byte blob). -/
def getSigningCertificate (st : SignatureType) : Outcome Err (List Nat) :=
  getSigningX509CertificateType st

/-- `Signature::validateIdentifier`. -/
def validateIdentifier (st : SignatureType) : Outcome Err Unit :=
  match st.id with
  | none => .thrown .idMissing
  | some i => if i.isEmpty then .thrown .idEmpty else .ok ()

/-- `Signature::checkSignatureMethod`. -/
def checkSignatureMethod (st : SignatureType) : Outcome Err Unit :=
  let algorithmType := st.signedInfo.signatureMethodAlgorithm
  if algorithmType ≠ URI_ID_RSA_SHA1 ∧ algorithmType ≠ URI_ID_RSA_SHA224 ∧
      algorithmType ≠ URI_ID_RSA_SHA256 then
    .thrown .unsupportedSignatureMethod
  else .ok ()

/-- The canonicalization-method dispatch of `calcDigestOnNode`: starting
from the canonicalizer's construction-time settings, each recognized
algorithm URI adjusts the flags; any other URI throws.  (Built with
`URI_ID_C14N11_NOC` defined, i.e. an xml-security-c that has C14N 1.1.) -/
def canonDispatch (algorithmType : Str) : Outcome Err CanonSettings :=
  let base : CanonSettings :=
    { comments := false, exclusive := false, inclusivePrefixes := [],
      inclusive11 := false, useNamespaceStack := true }
  if algorithmType = URI_ID_C14N_NOC then .ok base
  else if algorithmType = URI_ID_C14N_COM then .ok { base with comments := true }
  else if algorithmType = URI_ID_EXC_C14N_NOC then
    .ok { base with exclusive := true, inclusivePrefixes := ["ds".data] }
  else if algorithmType = URI_ID_C14N11_NOC then
    .ok { base with inclusive11 := true }
  else if algorithmType = URI_ID_C14N11_COM then
    .ok { base with inclusive11 := true, comments := true }
  else .thrown .unsupportedCanonMethod

/-- `Signature::calcDigestOnNode`: re-parse the original bytes, select
the unique `(ns, tagName)` element, configure the canonicalizer from the
`SignedInfo` canonicalization method, and digest the canonical bytes
under `huri` (the URI the caller created the `Digest` with). -/
def calcDigestOnNode (env : Env) (s : Sig) (huri : Str) (ns tag : Str) :
    Outcome Err (List Nat) :=
  if env.domParseOk s.xml = false then .thrown .parseFailed
  else if env.elemCount s.xml ns tag < 1 then .thrown .nodeNotFound
  else if env.elemCount s.xml ns tag > 1 then .thrown .nodeMultiple
  else
    (canonDispatch s.sign.signedInfo.canonicalizationMethodAlgorithm).bind
      fun settings => .ok (env.hash huri (env.canon s.xml settings ns tag))

/-- `Signature::xadesnamespace` (virtual). -/
def xadesnamespace (s : Sig) : Str :=
  match s.dialect with
  | .v111 => XADES111_NAMESPACE
  | .v132 => XADES132_NAMESPACE

/-- `Signature::isReferenceToSigProps`: the `Type` attribute must find
`"http://uri.etsi.org/01903"` at position 0 and rfind
`"#SignedProperties"` at position `length - 17` (`size_t` arithmetic). -/
def isReferenceToSigProps (refType : Reference) : Bool :=
  match refType.type with
  | none => false
  | some typeAttr =>
    decide (strFindFrom typeAttr ETSI_PAT 0 = 0) &&
    decide (strRfind typeAttr SIGPROP_PAT =
      (typeAttr.length + (SIZE_MOD - SIGPROP_PAT.length)) % SIZE_MOD)

/-- `Signature::checkReferenceToSigProps`: URI present, digest algorithm
supported, recomputed digest of the canonicalized `SignedProperties`
subtree equal (length, then bytes) to the asserted digest. -/
def checkReferenceToSigProps (env : Env) (s : Sig) (refType : Reference) :
    Outcome Err Unit :=
  match refType.uri with
  | none => .thrown .sigPropsRefNoURI
  | some _ =>
    if env.hashSupported refType.digestMethodAlgorithm = false then
      .thrown .sigPropsDigestUnsupported
    else
      (calcDigestOnNode env s refType.digestMethodAlgorithm (xadesnamespace s)
        "SignedProperties".data).bind fun calculatedDigestValue =>
        if refType.digestValue.length ≠ calculatedDigestValue.length then
          .thrown .sigPropsDigestLength
        else if refType.digestValue ≠ calculatedDigestValue then
          .thrown .sigPropsDigestMismatch
        else .ok ()

/-- The reference loop of `Signature::checkReferences`: at most one (and
at least one) reference to `SignedProperties`, checked on sight. -/
def sigPropsLoop (env : Env) (s : Sig) :
    List Reference → Bool → Outcome Err Unit
  | [], gotSignatureRef =>
    if gotSignatureRef then .ok () else .thrown .noSigPropsRef
  | refType :: rest, gotSignatureRef =>
    if isReferenceToSigProps refType then
      if gotSignatureRef then .thrown .multipleSigPropsRefs
      else
        (checkReferenceToSigProps env s refType).bind fun _ =>
          sigPropsLoop env s rest true
    else sigPropsLoop env s rest gotSignatureRef

/-- The document-reference half of `checkReferencesToDocs`: the trace of
`checkDocument(uri, alg, digest)` calls, with the leading `/` stripped
from each URI; a missing URI throws. -/
def docTrace : List Reference → Outcome Err (List DocCheck)
  | [] => .ok []
  | refType :: rest =>
    if isReferenceToSigProps refType then docTrace rest
    else
      match refType.uri with
      | none => .thrown .docRefNoURI
      | some u =>
        let docRefUri := match u with
          | '/' :: t => t
          | _ => u
        (docTrace rest).bind fun tr =>
          .ok (⟨docRefUri, refType.digestMethodAlgorithm, refType.digestValue⟩ :: tr)

/-- `Signature::checkReferencesToDocs`. -/
def checkReferencesToDocs (ci : ContainerInfo) (refSeq : List Reference) :
    Outcome Err Unit :=
  (docTrace refSeq).bind fun tr =>
    if ci.resultOf tr then .ok () else .thrown .docRefsMismatch

/-- `Signature::checkReferences`. -/
def checkReferences (env : Env) (ci : ContainerInfo) (s : Sig) :
    Outcome Err Unit :=
  let refSeq := s.sign.signedInfo.reference
  if refSeq.length ≠ ci.documentCount + 1 then .thrown .refCountInvalid
  else
    (sigPropsLoop env s refSeq false).bind fun _ =>
      checkReferencesToDocs ci refSeq

/-- `Signature::checkSigningCertificate`. -/
def checkSigningCertificate (env : Env) (st : SignatureType)
    (store : Option X509CertStore) : Outcome Err Unit :=
  (getSigningCertificate st).bind fun signingCert =>
    match store with
    | none => .thrown .certVerifyFailed
    | some ss =>
      if env.certVerify signingCert ss then .ok () else .thrown .certVerifyFailed

/-- `Signature::checkSignatureValue`: derive the hash URI from the
signature-method URI, digest the canonicalized `SignedInfo`, verify the
`SignatureValue` under the signing certificate. -/
def checkSignatureValue (env : Env) (s : Sig) : Outcome Err Unit :=
  (getSigningCertificate s.sign).bind fun cert =>
    match env.sigMethodHashURI s.sign.signedInfo.signatureMethodAlgorithm with
    | none => .thrown .hashMethodExtractFailed
    | some huri =>
      (digestCreate env huri).bind fun _ =>
        (calcDigestOnNode env s huri DSIG_NAMESPACE "SignedInfo".data).bind
          fun digest =>
            if env.verifySig cert huri (env.hashSize huri) digest
                (getSignatureValue s.sign) then .ok ()
            else .thrown .signatureInvalid

/-- `XAdES111Signature::checkKeyInfo`. -/
def checkKeyInfo111 (env : Env) (st : SignatureType) : Outcome Err Unit :=
  (getSigningCertificate st).bind fun x509 =>
    match st.object with
    | [o] =>
      match o.qualifyingProperties1 with
      | [qp] =>
        match qp.signedProperties with
        | none => .thrown .signedPropsNotFound
        | some sigProps =>
          match sigProps.signedSignatureProperties.signingCertificate.cert with
          | [c] =>
            let certDigestMethodAlgorithm := c.certDigest.digestMethodAlgorithm
            if env.hashSupported certDigestMethodAlgorithm = false then
              .thrown .certDigestUnsupported
            else if env.compareIssuerToString x509 c.issuerSerial.x509IssuerName
                ∨ env.certSerial x509 ≠ c.issuerSerial.x509SerialNumber then
              .thrown .issuerInfoInvalid
            else
              let calcDigest :=
                env.hash certDigestMethodAlgorithm (env.certDER x509)
              if c.certDigest.digestValue.length ≠
                  env.hashSize certDigestMethodAlgorithm then
                .thrown .certDigestLength
              else if (List.range (env.hashSize certDigestMethodAlgorithm)).any
                  (fun i => calcDigest.getD i 0 ≠ c.certDigest.digestValue.getD i 0)
                  then
                .thrown .certDigestMismatch
              else .ok ()
          | _ => .thrown .signingCertCount
      | _ => .thrown .keyInfoQPCount
    | _ => .thrown .keyInfoObjectCount

/-- `XAdES132Signature::checkKeyInfo` (identical up to the dialect's
optional `SigningCertificate`). -/
def checkKeyInfo132 (env : Env) (st : SignatureType) : Outcome Err Unit :=
  (getSigningCertificate st).bind fun x509 =>
    match st.object with
    | [o] =>
      match o.qualifyingProperties with
      | [qp] =>
        match qp.signedProperties with
        | none => .thrown .signedPropsNotFound
        | some sigProps =>
          match sigProps.signedSignatureProperties.signingCertificate with
          | none => .thrown .signingCertNotFound
          | some sigCert =>
            match sigCert.cert with
            | [c] =>
              let certDigestMethodAlgorithm := c.certDigest.digestMethodAlgorithm
              if env.hashSupported certDigestMethodAlgorithm = false then
                .thrown .certDigestUnsupported
              else if env.compareIssuerToString x509 c.issuerSerial.x509IssuerName
                  ∨ env.certSerial x509 ≠ c.issuerSerial.x509SerialNumber then
                .thrown .issuerInfoInvalid
              else
                let calcDigest :=
                  env.hash certDigestMethodAlgorithm (env.certDER x509)
                if c.certDigest.digestValue.length ≠
                    env.hashSize certDigestMethodAlgorithm then
                  .thrown .certDigestLength
                else if (List.range (env.hashSize certDigestMethodAlgorithm)).any
                    (fun i =>
                      calcDigest.getD i 0 ≠ c.certDigest.digestValue.getD i 0)
                    then
                  .thrown .certDigestMismatch
                else .ok ()
            | _ => .thrown .signingCertCount
      | _ => .thrown .keyInfoQPCount
    | _ => .thrown .keyInfoObjectCount

/-- `XAdES111Signature::checkSignedSignatureProperties`: structural
checks down to `SignedProperties`; the `SignaturePolicyIdentifier` is
read into a local and never examined. -/
def checkSignedSignatureProperties111 (st : SignatureType) : Outcome Err Unit :=
  match st.object with
  | [] => .thrown .objectMissing
  | [o] =>
    match o.qualifyingProperties1 with
    | [] => .thrown .qpMissing
    | [qp] =>
      match qp.signedProperties with
      | none => .thrown .signedPropsMissing
      | some signedProps =>
        let _policyOpt :=
          signedProps.signedSignatureProperties.signaturePolicyIdentifier
        .ok ()
    | _ :: _ :: _ => .thrown .qpMultiple
  | _ :: _ :: _ => .thrown .objectMultiple

/-- `XAdES132Signature::checkSignedSignatureProperties`: same structure,
but a present `SignaturePolicyIdentifier` throws. -/
def checkSignedSignatureProperties132 (st : SignatureType) : Outcome Err Unit :=
  match st.object with
  | [] => .thrown .objectMissing
  | [o] =>
    match o.qualifyingProperties with
    | [] => .thrown .qpMissing
    | [qp] =>
      match qp.signedProperties with
      | none => .thrown .signedPropsMissing
      | some signedProps =>
        match signedProps.signedSignatureProperties.signaturePolicyIdentifier with
        | some _ => .thrown .signaturePolicyInvalid
        | none => .ok ()
    | _ :: _ :: _ => .thrown .qpMultiple
  | _ :: _ :: _ => .thrown .objectMultiple

/-- `XAdES111Signature::checkQualifyingProperties`: note the unguarded
`object()[0]` and `id().get()` (undefined behaviour when absent). -/
def checkQualifyingProperties111 (st : SignatureType) : Outcome Err Unit :=
  match st.object with
  | [] => .ub
  | o :: _ =>
    if o.qualifyingProperties1.length ≠ 1 then .thrown .qpCountInvalid
    else
      match o.qualifyingProperties1 with
      | [] => .ub
      | qp :: _ =>
        match st.id with
        | none => .ub
        | some idv =>
          if qp.target ≠ '#' :: idv then .thrown .qpTargetInvalid
          else
            (checkSignedSignatureProperties111 st).bind fun _ =>
              match qp.unsignedProperties with
              | some uProps =>
                if uProps.unsignedDataObjectProperties.isSome then
                  .thrown .unexpectedUDOP
                else .ok ()
              | none => .ok ()

/-- `XAdES132Signature::checkQualifyingProperties`. -/
def checkQualifyingProperties132 (st : SignatureType) : Outcome Err Unit :=
  match st.object with
  | [] => .ub
  | o :: _ =>
    if o.qualifyingProperties.length ≠ 1 then .thrown .qpCountInvalid
    else
      match o.qualifyingProperties with
      | [] => .ub
      | qp :: _ =>
        match st.id with
        | none => .ub
        | some idv =>
          if qp.target ≠ '#' :: idv then .thrown .qpTargetInvalid
          else
            (checkSignedSignatureProperties132 st).bind fun _ =>
              match qp.unsignedProperties with
              | some uProps =>
                if uProps.unsignedDataObjectProperties.isSome then
                  .thrown .unexpectedUDOP
                else .ok ()
              | none => .ok ()

/-- Virtual `checkQualifyingProperties`. -/
def checkQualifyingProperties (s : Sig) : Outcome Err Unit :=
  match s.dialect with
  | .v111 => checkQualifyingProperties111 s.sign
  | .v132 => checkQualifyingProperties132 s.sign

/-- Virtual `checkKeyInfo`. -/
def checkKeyInfo (env : Env) (s : Sig) : Outcome Err Unit :=
  match s.dialect with
  | .v111 => checkKeyInfo111 env s.sign
  | .v132 => checkKeyInfo132 env s.sign

/-- The second try-block of `validateOffline`: the four fail-fast
algorithmic-integrity checks. -/
def besChecks (env : Env) (ci : ContainerInfo) (s : Sig) : Outcome Err Unit :=
  (checkSignatureMethod s.sign).bind fun _ =>
    (checkReferences env ci s).bind fun _ =>
      (checkKeyInfo env s).bind fun _ =>
        checkSignatureValue env s

/-- Errors collected from one try-block of `validateOffline`. -/
def errsOf : Outcome Err Unit → List Err
  | .thrown e => [e]
  | _ => []

/-- `Signature::validateOffline`: runs the three independent groups of
checks, catching each group's `StackExceptionBase`, and throws the
combined exception iff any cause was recorded.  Undefined behaviour in a
group is not catchable and aborts the whole run. -/
def validateOffline (env : Env) (ci : ContainerInfo)
    (store : Option X509CertStore) (s : Sig) : Outcome (List Err) Unit :=
  match checkQualifyingProperties s with
  | .ub => .ub
  | ra =>
    match besChecks env ci s with
    | .ub => .ub
    | rb =>
      match checkSigningCertificate env s.sign store with
      | .ub => .ub
      | rc =>
        let causes := errsOf ra ++ errsOf rb ++ errsOf rc
        if causes.isEmpty then .ok () else .thrown causes

/-- `XAdES111Signature::unsignSigProps`: checks `UnsignedProperties`
presence (after unguarded `object()[0]` / `qualifyingProperties1()[0]`)
and returns the `UnsignedSignatureProperties` optional. -/
def unsignSigProps111 (st : SignatureType) : Outcome Err (Option USP111) :=
  match st.object with
  | [] => .ub
  | o :: _ =>
    match o.qualifyingProperties1 with
    | [] => .ub
    | qp :: _ =>
      match qp.unsignedProperties with
      | none => .thrown .missingUnsignedProps
      | some up => .ok up.unsignedSignatureProperties

/-- `XAdES132Signature::unsignSigProps`. -/
def unsignSigProps132 (st : SignatureType) : Outcome Err (Option USP132) :=
  match st.object with
  | [] => .ub
  | o :: _ =>
    match o.qualifyingProperties with
    | [] => .ub
    | qp :: _ =>
      match qp.unsignedProperties with
      | none => .thrown .missingUnsignedProps
      | some up => .ok up.unsignedSignatureProperties

/-- `XAdES111Signature::getOCSPResponseValue`: guards
`UnsignedSignatureProperties` and `RevocationValues`, then dereferences
the `OCSPValues` optional with an unguarded `.get()` and indexes
`EncapsulatedOCSPValue[0]`. -/
def getOCSPResponseValue111 (st : SignatureType) : Outcome Err (List Nat) :=
  (unsignSigProps111 st).bind fun uspOpt =>
    match uspOpt with
    | none => .thrown .missingUnsignedSigProps
    | some usp =>
      match usp.revocationValues with
      | none => .thrown .missingRevocationValues
      | some t =>
        match t.ocspValues with
        | none => .ub
        | some tt =>
          match tt.encapsulatedOCSPValue with
          | [] => .ub
          | resp :: _ => .ok resp

/-- `XAdES132Signature::getOCSPResponseValue` (the `RevocationValues`
sequence must be non-empty; `OCSPValues` again dereferenced unguarded). -/
def getOCSPResponseValue132 (st : SignatureType) : Outcome Err (List Nat) :=
  (unsignSigProps132 st).bind fun uspOpt =>
    match uspOpt with
    | none => .thrown .missingUnsignedSigProps
    | some usp =>
      match usp.revocationValues with
      | [] => .thrown .missingRevocationValues
      | t :: _ =>
        match t.ocspValues with
        | none => .ub
        | some tt =>
          match tt.encapsulatedOCSPValue with
          | [] => .ub
          | resp :: _ => .ok resp

/-- `XAdES111Signature::ocspDigestAlgorithm`: a chain of unguarded
optional dereferences and `[0]` indexings down to
`OCSPRef[0].DigestAlgAndValue.DigestMethod.Algorithm`. -/
def ocspDigestAlgorithm111 (st : SignatureType) : Outcome Err Str :=
  (unsignSigProps111 st).bind fun uspOpt =>
    match uspOpt with
    | none => .ub
    | some usp =>
      match usp.completeRevocationRefs with
      | none => .ub
      | some crr =>
        match crr.ocspRefs with
        | none => .ub
        | some refs =>
          match refs.ocspRef with
          | [] => .ub
          | r :: _ =>
            match r.digestAlgAndValue with
            | none => .ub
            | some dav => .ok dav.digestMethodAlgorithm

/-- `XAdES132Signature::ocspDigestAlgorithm`. -/
def ocspDigestAlgorithm132 (st : SignatureType) : Outcome Err Str :=
  (unsignSigProps132 st).bind fun uspOpt =>
    match uspOpt with
    | none => .ub
    | some usp =>
      match usp.completeRevocationRefs with
      | [] => .ub
      | crr :: _ =>
        match crr.ocspRefs with
        | none => .ub
        | some refs =>
          match refs.ocspRef with
          | [] => .ub
          | r :: _ =>
            match r.digestAlgAndValue with
            | none => .ub
            | some dav => .ok dav.digestMethodAlgorithm

/-- `XAdES111Signature::getRevocationOCSPRef`: guarded navigation; any
absent element on the path falls through to a single `MissingElement`
throw.  (The initial `unsignSigProps()->` dereference is unguarded.) -/
def getRevocationOCSPRef111 (st : SignatureType) :
    Outcome Err (List Nat × Str) :=
  (unsignSigProps111 st).bind fun uspOpt =>
    match uspOpt with
    | none => .ub
    | some usp =>
      match usp.completeRevocationRefs with
      | some crr =>
        match crr.ocspRefs with
        | some refs =>
          match refs.ocspRef with
          | r :: _ =>
            match r.digestAlgAndValue with
            | some dav => .ok (dav.digestValue, dav.digestMethodAlgorithm)
            | none => .thrown .missingDigestAlgAndValue
          | [] => .thrown .missingDigestAlgAndValue
        | none => .thrown .missingDigestAlgAndValue
      | none => .thrown .missingDigestAlgAndValue

/-- `XAdES132Signature::getRevocationOCSPRef`. -/
def getRevocationOCSPRef132 (st : SignatureType) :
    Outcome Err (List Nat × Str) :=
  (unsignSigProps132 st).bind fun uspOpt =>
    match uspOpt with
    | none => .ub
    | some usp =>
      match usp.completeRevocationRefs with
      | crr :: _ =>
        match crr.ocspRefs with
        | some refs =>
          match refs.ocspRef with
          | r :: _ =>
            match r.digestAlgAndValue with
            | some dav => .ok (dav.digestValue, dav.digestMethodAlgorithm)
            | none => .thrown .missingDigestAlgAndValue
          | [] => .thrown .missingDigestAlgAndValue
        | none => .thrown .missingDigestAlgAndValue
      | [] => .thrown .missingDigestAlgAndValue

/-- Virtual `getOCSPResponseValue`. -/
def getOCSPResponseValue (s : Sig) : Outcome Err (List Nat) :=
  match s.dialect with
  | .v111 => getOCSPResponseValue111 s.sign
  | .v132 => getOCSPResponseValue132 s.sign

/-- Virtual `ocspDigestAlgorithm`. -/
def ocspDigestAlgorithm (s : Sig) : Outcome Err Str :=
  match s.dialect with
  | .v111 => ocspDigestAlgorithm111 s.sign
  | .v132 => ocspDigestAlgorithm132 s.sign

/-- Virtual `getRevocationOCSPRef`. -/
def getRevocationOCSPRef (s : Sig) : Outcome Err (List Nat × Str) :=
  match s.dialect with
  | .v111 => getRevocationOCSPRef111 s.sign
  | .v132 => getRevocationOCSPRef132 s.sign

/-- `SignatureValidator::prepare`: signing certificate, issuer-CN
lookup in the OCSP configuration, issuer certificate from the store,
responder certificate stack, OCSP client construction. -/
def prepare (env : Env) (conf : Conf) (s : Sig) : Outcome Err OCSPState :=
  (getSigningCertificate s.sign).bind fun signingCert =>
    let issuer := env.getIssuerName signingCert
    let pos := (strFindFrom issuer CN_PAT 0 + 3) % SIZE_MOD
    if pos > issuer.length then .thrown .stdOutOfRange
    else
      let issureCN :=
        substrC issuer pos (strFindFrom issuer (String.data ",") pos - pos)
      if conf.hasOCSPConf issureCN = false then .thrown .noOCSPResponder
      else
        let ocspConf := conf.getOCSPConf issureCN
        match conf.storeGetCert (env.getIssuerNameAsn1 signingCert) with
        | none => .thrown .issuerUnknown
        | some issuerX509 =>
          .ok { url := ocspConf.url, skew := ocspConf.skew,
                maxAge := ocspConf.maxAge,
                ocspCerts := env.loadX509Stack ocspConf.cert,
                signingCert := signingCert, issuerX509 := issuerX509 }

/-- `SignatureValidator::validateTMOffline`: verify the encapsulated
OCSP response, compare its nonce to the digest of `SignatureValue`
under `ocspDigestAlgorithm()`, then compare the digest of the response
to the `OCSPRef` digest value. -/
def validateTMOffline (env : Env) (conf : Conf) (s : Sig) :
    Outcome Err Unit :=
  (prepare env conf s).bind fun ocsp =>
    (getOCSPResponseValue s).bind fun ocspResponse =>
      if env.verifyResponse ocsp ocspResponse = false then
        .thrown .ocspVerifyFailed
      else
        let respNonce := env.getNonce ocsp ocspResponse
        (ocspDigestAlgorithm s).bind fun method =>
          (digestCreate env method).bind fun _ =>
            let nonce := env.hash method (getSignatureValue s.sign)
            if nonce ≠ respNonce then .thrown .nonceMismatch
            else
              (getRevocationOCSPRef s).bind fun rv =>
                (digestCreate env rv.2).bind fun _ =>
                  let ocspResponseHash := env.hash rv.2 ocspResponse
                  if ocspResponseHash ≠ rv.1 then .thrown .ocspRefMismatch
                  else .ok ()

/-! ## Concrete sample data

A small well-formed XAdES v1.1.1 signature together with concrete
collaborator instances, used to evaluate the theorems below on closed
inputs. -/

/-- A concrete digest oracle: digest of a byte list is the singleton of
its length. -/
def envW : Env :=
  { hashSupported := fun _ => true
    hash := fun _ b => [b.length]
    hashSize := fun _ => 1
    domParseOk := fun _ => true
    elemCount := fun _ _ _ => 1
    canon := fun xml _ _ _ => xml
    sigMethodHashURI := fun _ => some "sha1".data
    verifySig := fun _ _ _ _ _ => true
    certVerify := fun _ _ => true
    getIssuerName := fun _ => "CN=TestCA,O=Org".data
    getIssuerNameAsn1 := fun _ => "asn1".data
    certSerial := fun _ => 7
    certDER := fun b => b
    compareIssuerToString := fun _ _ => false
    loadX509Stack := fun _ => [[1]]
    verifyResponse := fun _ _ => true
    getNonce := fun _ _ => [3] }

def confW : Conf :=
  { digestURI := "sha1".data
    hasOCSPConf := fun cn => cn == "TestCA".data
    getOCSPConf := fun _ => ⟨"http://ocsp".data, "certs.pem".data, 1, 2⟩
    storeGetCert := fun _ => some [4] }

def ciW : ContainerInfo :=
  { documentCount := 1, resultOf := fun _ => true }

def storeW : X509CertStore := ⟨0⟩

def davW : DigestAlgAndValue := ⟨"alg".data, [2]⟩

def uspW : USP111 :=
  { revocationValues := some { ocspValues := some ⟨[[9, 9]]⟩ }
    completeRevocationRefs := some ⟨some ⟨[⟨⟨"2013".data⟩, some davW⟩]⟩⟩ }

def sspW : SSP111 :=
  { signingCertificate := ⟨[⟨⟨"alg".data, [2]⟩, ⟨"CN=TestCA,O=Org".data, 7⟩⟩]⟩
    signaturePolicyIdentifier := 0 }

def qp1W : QP111 :=
  { target := "#S0".data
    signedProperties := some ⟨sspW⟩
    unsignedProperties :=
      some { unsignedSignatureProperties := some uspW
             unsignedDataObjectProperties := none } }

def refSigPropsW : Reference :=
  { uri := some "#S0-SignedProperties".data
    type := some "http://uri.etsi.org/01903#SignedProperties".data
    digestMethodAlgorithm := "alg".data
    digestValue := [2] }

def refDocW : Reference :=
  { uri := some "/doc.txt".data
    type := none
    digestMethodAlgorithm := "alg".data
    digestValue := [0] }

def stW : SignatureType :=
  { id := some "S0".data
    signedInfo :=
      { canonicalizationMethodAlgorithm := URI_ID_C14N_NOC
        signatureMethodAlgorithm := URI_ID_RSA_SHA1
        reference := [refSigPropsW, refDocW] }
    signatureValue := [1, 2, 3]
    keyInfo := some ⟨[⟨[[5, 5]]⟩]⟩
    object := [⟨[], [qp1W]⟩] }

def sigW : Sig := ⟨Dialect.v111, stW, [60, 63]⟩

/-! ## C9: signature-method policy -/

/-- C9: `checkSignatureMethod` throws `UnsupportedAlgorithm` iff the
`SignedInfo` `SignatureMethod` algorithm URI is none of RSA-SHA1,
RSA-SHA224, RSA-SHA256, and returns normally otherwise. -/
theorem checkSignatureMethod_spec (st : SignatureType) :
    (checkSignatureMethod st = .thrown .unsupportedSignatureMethod ↔
      (st.signedInfo.signatureMethodAlgorithm ≠ URI_ID_RSA_SHA1 ∧
       st.signedInfo.signatureMethodAlgorithm ≠ URI_ID_RSA_SHA224 ∧
       st.signedInfo.signatureMethodAlgorithm ≠ URI_ID_RSA_SHA256)) ∧
    (checkSignatureMethod st = .ok () ↔
      (st.signedInfo.signatureMethodAlgorithm = URI_ID_RSA_SHA1 ∨
       st.signedInfo.signatureMethodAlgorithm = URI_ID_RSA_SHA224 ∨
       st.signedInfo.signatureMethodAlgorithm = URI_ID_RSA_SHA256)) := by
  by_cases h1 : st.signedInfo.signatureMethodAlgorithm = URI_ID_RSA_SHA1 <;>
    by_cases h2 : st.signedInfo.signatureMethodAlgorithm = URI_ID_RSA_SHA224 <;>
      by_cases h3 : st.signedInfo.signatureMethodAlgorithm = URI_ID_RSA_SHA256 <;>
        simp [checkSignatureMethod, h1, h2, h3]

/-! ## C4: parse cardinality and dialect exclusivity -/

/-- C4: `parse` succeeds iff there is exactly one `Object` and exactly
one of the `QualifyingProperties` (v1.3.2) / `QualifyingProperties1`
(v1.1.1) sequences is non-empty with size exactly 1; on success it
builds the matching variant and preserves the original byte buffer.
`parse` itself never hits undefined behaviour. -/
theorem parse_spec (st : SignatureType) (xml : List Nat) :
    (∀ sg : Sig, parse st xml = .ok sg ↔
      ∃ o, st.object = [o] ∧
        ((o.qualifyingProperties = [] ∧ o.qualifyingProperties1.length = 1 ∧
          sg = ⟨Dialect.v111, st, xml⟩) ∨
         (o.qualifyingProperties.length = 1 ∧ o.qualifyingProperties1 = [] ∧
          sg = ⟨Dialect.v132, st, xml⟩))) ∧
    parse st xml ≠ .ub := by
  constructor
  · intro sg
    cases hobj : st.object with
    | nil => simp [parse, hobj]
    | cons o rest =>
      cases rest with
      | cons o2 t => simp [parse, hobj]
      | nil =>
        constructor
        · intro h
          refine ⟨o, rfl, ?_⟩
          simp only [parse, hobj] at h
          split_ifs at h with c1 c2 c3 c4 c5
          · simp only [Bool.and_eq_true, List.isEmpty_eq_true,
              Bool.not_eq_true', List.isEmpty_eq_false] at c2
            rw [Outcome.ok.injEq] at h
            have hlen : o.qualifyingProperties1.length = 1 := by omega
            exact Or.inl ⟨c2.1, hlen, h.symm⟩
          · simp only [Bool.and_eq_true, List.isEmpty_eq_true,
              Bool.not_eq_true', List.isEmpty_eq_false] at c4
            rw [Outcome.ok.injEq] at h
            have hlen : o.qualifyingProperties.length = 1 := by omega
            exact Or.inr ⟨hlen, c4.2, h.symm⟩
        · rintro ⟨o', ho', hc⟩
          obtain rfl : o = o' := by injection ho'
          rcases hc with ⟨hqp, hlen, rfl⟩ | ⟨hlen, hqp1, rfl⟩
          · have hne : o.qualifyingProperties1 ≠ [] := by
              intro hh; rw [hh] at hlen; simp at hlen
            simp [parse, hobj, hqp, hlen, List.isEmpty_eq_true, hne]
          · have hne : o.qualifyingProperties ≠ [] := by
              intro hh; rw [hh] at hlen; simp at hlen
            simp [parse, hobj, hqp1, hlen, List.isEmpty_eq_true, hne]
  · cases hobj : st.object with
    | nil => simp [parse, hobj]
    | cons o rest =>
      cases rest with
      | cons o2 t => simp [parse, hobj]
      | nil =>
        simp only [parse, hobj]
        split_ifs <;> simp

/-! ## C6: canonicalization-method dispatch -/

/-- C6: when the DOM re-parse and the node selection succeed with a
unique node, `calcDigestOnNode` dispatches on the `SignedInfo`
`CanonicalizationMethod` URI over exactly five cases (C14N 1.0 without
and with comments, exclusive C14N 1.0 with inclusive-prefix list
`{"ds"}`, C14N 1.1 without and with comments) and throws
`UnsupportedAlgorithm` for every other URI. -/
theorem calcDigestOnNode_dispatch (env : Env) (s : Sig) (huri ns tag : Str)
    (hdom : env.domParseOk s.xml = true)
    (hn : env.elemCount s.xml ns tag = 1) :
    (s.sign.signedInfo.canonicalizationMethodAlgorithm = URI_ID_C14N_NOC →
      calcDigestOnNode env s huri ns tag =
        .ok (env.hash huri
          (env.canon s.xml ⟨false, false, [], false, true⟩ ns tag))) ∧
    (s.sign.signedInfo.canonicalizationMethodAlgorithm = URI_ID_C14N_COM →
      calcDigestOnNode env s huri ns tag =
        .ok (env.hash huri
          (env.canon s.xml ⟨true, false, [], false, true⟩ ns tag))) ∧
    (s.sign.signedInfo.canonicalizationMethodAlgorithm = URI_ID_EXC_C14N_NOC →
      calcDigestOnNode env s huri ns tag =
        .ok (env.hash huri
          (env.canon s.xml ⟨false, true, ["ds".data], false, true⟩ ns tag))) ∧
    (s.sign.signedInfo.canonicalizationMethodAlgorithm = URI_ID_C14N11_NOC →
      calcDigestOnNode env s huri ns tag =
        .ok (env.hash huri
          (env.canon s.xml ⟨false, false, [], true, true⟩ ns tag))) ∧
    (s.sign.signedInfo.canonicalizationMethodAlgorithm = URI_ID_C14N11_COM →
      calcDigestOnNode env s huri ns tag =
        .ok (env.hash huri
          (env.canon s.xml ⟨true, false, [], true, true⟩ ns tag))) ∧
    (s.sign.signedInfo.canonicalizationMethodAlgorithm ∉
        [URI_ID_C14N_NOC, URI_ID_C14N_COM, URI_ID_EXC_C14N_NOC,
         URI_ID_C14N11_NOC, URI_ID_C14N11_COM] →
      calcDigestOnNode env s huri ns tag = .thrown .unsupportedCanonMethod) := by
  have hbase : ∀ settings, canonDispatch
      s.sign.signedInfo.canonicalizationMethodAlgorithm = .ok settings →
      calcDigestOnNode env s huri ns tag =
        .ok (env.hash huri (env.canon s.xml settings ns tag)) := by
    intro settings hset
    simp [calcDigestOnNode, hdom, hn, hset, Outcome.bind]
  refine ⟨fun h => hbase _ (by rw [h]; decide),
    fun h => hbase _ (by rw [h]; decide), fun h => hbase _ (by rw [h]; decide),
    fun h => hbase _ (by rw [h]; decide), fun h => hbase _ (by rw [h]; decide),
    fun h => ?_⟩
  simp only [List.mem_cons, List.not_mem_nil, or_false, not_or] at h
  obtain ⟨h1, h2, h3, h4, h5⟩ := h
  simp [calcDigestOnNode, hdom, hn, canonDispatch, h1, h2, h3, h4, h5,
    Outcome.bind]

/-! ## C3: error accumulation across the three groups -/

/-- C3: as long as no group hits undefined behaviour, `validateOffline`
returns normally iff all three groups of checks succeed, and otherwise
throws the combined error holding exactly the error of each failing
group (so a failure in one group does not prevent the others from
contributing their errors). -/
theorem validateOffline_spec (env : Env) (ci : ContainerInfo)
    (store : Option X509CertStore) (s : Sig)
    (hA : checkQualifyingProperties s ≠ .ub)
    (hB : besChecks env ci s ≠ .ub)
    (hC : checkSigningCertificate env s.sign store ≠ .ub) :
    (validateOffline env ci store s = .ok () ↔
      (checkQualifyingProperties s = .ok () ∧ besChecks env ci s = .ok () ∧
       checkSigningCertificate env s.sign store = .ok ())) ∧
    ((checkQualifyingProperties s = .ok () ∧ besChecks env ci s = .ok () ∧
       checkSigningCertificate env s.sign store = .ok ()) ∨
      validateOffline env ci store s =
        .thrown (errsOf (checkQualifyingProperties s) ++
          errsOf (besChecks env ci s) ++
          errsOf (checkSigningCertificate env s.sign store))) := by
  rcases ha : checkQualifyingProperties s with _ | ea | _ <;>
    rcases hb : besChecks env ci s with _ | eb | _ <;>
      rcases hc : checkSigningCertificate env s.sign store with _ | ec | _ <;>
        first
          | exact absurd ha hA
          | exact absurd hb hB
          | exact absurd hc hC
          | simp [validateOffline, ha, hb, hc, errsOf]

/-! ## C10: unguarded `Id` dereference on the offline path -/

/-- Inversion of a successful `parse`. -/
theorem parse_ok_cases {st : SignatureType} {xml : List Nat} {s : Sig}
    (hp : parse st xml = .ok s) :
    ∃ o, st.object = [o] ∧ s.sign = st ∧ s.xml = xml ∧
      ((s.dialect = .v111 ∧ o.qualifyingProperties = [] ∧
        o.qualifyingProperties1.length = 1) ∨
       (s.dialect = .v132 ∧ o.qualifyingProperties.length = 1 ∧
        o.qualifyingProperties1 = [])) := by
  cases hobj : st.object with
  | nil => rw [parse, hobj] at hp; exact absurd hp (by simp)
  | cons o rest =>
    cases rest with
    | cons o2 t => rw [parse, hobj] at hp; exact absurd hp (by simp)
    | nil =>
      refine ⟨o, rfl, ?_⟩
      simp only [parse, hobj] at hp
      split_ifs at hp with c1 c2 c3 c4 c5
      · simp only [Bool.and_eq_true, List.isEmpty_eq_true,
          Bool.not_eq_true', List.isEmpty_eq_false] at c2
        rw [Outcome.ok.injEq] at hp
        rw [← hp]
        exact ⟨rfl, rfl, Or.inl ⟨rfl, c2.1, by omega⟩⟩
      · simp only [Bool.and_eq_true, List.isEmpty_eq_true,
          Bool.not_eq_true', List.isEmpty_eq_false] at c4
        rw [Outcome.ok.injEq] at hp
        rw [← hp]
        exact ⟨rfl, rfl, Or.inr ⟨rfl, by omega, c4.2⟩⟩

/-- C10: for every parsed signature without an `Id` attribute, both
dialects' `checkQualifyingProperties` dereference the absent `Id`
optional unguarded (undefined behaviour), `validateOffline` reaches this
dereference (it never invokes `validateIdentifier`, which would have
thrown a typed error first). -/
theorem id_unguarded (st : SignatureType) (xml : List Nat) (s : Sig)
    (hp : parse st xml = .ok s) (hid : st.id = none) :
    checkQualifyingProperties s = .ub ∧
    (∀ (env : Env) (ci : ContainerInfo) (store : Option X509CertStore),
      validateOffline env ci store s = .ub) ∧
    validateIdentifier st = .thrown .idMissing := by
  obtain ⟨o, hobj, hsign, _, hcase⟩ := parse_ok_cases hp
  have h1 : checkQualifyingProperties s = .ub := by
    rcases hcase with ⟨hd, _, hlen⟩ | ⟨hd, hlen, _⟩
    · obtain ⟨qp, hq⟩ := List.length_eq_one.mp hlen
      simp [checkQualifyingProperties, hd, checkQualifyingProperties111,
        hsign, hobj, hq, hid]
    · obtain ⟨qp, hq⟩ := List.length_eq_one.mp hlen
      simp [checkQualifyingProperties, hd, checkQualifyingProperties132,
        hsign, hobj, hq, hid]
  refine ⟨h1, fun env ci store => ?_, ?_⟩
  · simp [validateOffline, h1]
  · simp [validateIdentifier, hid]

/-! ## C1: the TM cryptographic binding -/

/-- C1: on a TM signature whose `prepare`, OCSP-response extraction and
`verifyResponse` succeed and whose OCSPRef path and digest algorithms
are available, `validateTMOffline` fails with `NonceMismatch` iff the
digest of `SignatureValue` under `ocspDigestAlgorithm()` differs from
the responder nonce; otherwise it fails with `OCSPRefMismatch` iff the
digest of the encapsulated OCSP response under the `OCSPRef`
`DigestAlgAndValue` algorithm differs from that `DigestValue`; if both
digests match it returns normally. -/
theorem validateTMOffline_spec (env : Env) (conf : Conf) (s : Sig)
    (ocsp : OCSPState) (resp : List Nat) (method : Str) (refVal : List Nat)
    (refUri : Str)
    (hprep : prepare env conf s = .ok ocsp)
    (hresp : getOCSPResponseValue s = .ok resp)
    (hver : env.verifyResponse ocsp resp = true)
    (halg : ocspDigestAlgorithm s = .ok method)
    (hsup : env.hashSupported method = true)
    (href : getRevocationOCSPRef s = .ok (refVal, refUri))
    (hsup2 : env.hashSupported refUri = true) :
    validateTMOffline env conf s =
      if env.hash method (getSignatureValue s.sign) ≠ env.getNonce ocsp resp
      then .thrown .nonceMismatch
      else if env.hash refUri resp ≠ refVal then .thrown .ocspRefMismatch
      else .ok () := by
  simp [validateTMOffline, hprep, hresp, hver, halg, href, digestCreate,
    hsup, hsup2, Outcome.bind]

theorem validateTMOffline_spec_witness :
    validateTMOffline envW confW sigW = .ok () := by
  have h := validateTMOffline_spec envW confW sigW
    ⟨"http://ocsp".data, 1, 2, [[1]], [5, 5], [4]⟩ [9, 9] "alg".data [2]
    "alg".data (by decide) (by decide) (by decide) (by decide) (by decide)
    (by decide) (by decide)
  rw [h]
  decide

theorem validateOffline_spec_witness :
    validateOffline envW ciW (some storeW) sigW = .ok () := by
  have h := validateOffline_spec envW ciW (some storeW) sigW (by decide)
    (by decide) (by decide)
  exact h.1.mpr ⟨by decide, by decide, by decide⟩

theorem calcDigestOnNode_dispatch_witness :
    calcDigestOnNode envW sigW "h".data DSIG_NAMESPACE "SignedInfo".data =
      .ok [2] := by
  have h := calcDigestOnNode_dispatch envW sigW "h".data DSIG_NAMESPACE
    "SignedInfo".data (by decide) (by decide)
  rw [h.1 (by decide)]
  decide

/-- The signature of `sigW` with the `Id` attribute removed. -/
def stN : SignatureType := { stW with id := none }

def sigN : Sig := ⟨Dialect.v111, stN, [60, 63]⟩

theorem id_unguarded_witness :
    checkQualifyingProperties sigN = .ub ∧
    validateOffline envW ciW (some storeW) sigN = .ub ∧
    validateIdentifier stN = .thrown .idMissing := by
  have h := id_unguarded stN [60, 63] sigN (by decide) (by decide)
  exact ⟨h.1, h.2.1 envW ciW (some storeW), h.2.2⟩

/-! ## String-search lemmas

Characterizations of the `find` / `rfind` / `substr` model, used to
restate `isReferenceToSigProps` and the issuer-CN extraction in terms of
plain prefix/suffix/`takeWhile` conditions. -/

theorem findInList_some_prefix {l pat : Str} {k : Nat}
    (h : findInList l pat = some k) : pat.isPrefixOf (l.drop k) := by
  induction l generalizing k with
  | nil =>
    rw [findInList] at h
    split_ifs at h with he
    · cases h
      simpa [List.isPrefixOf] using he
  | cons a tl ih =>
    rw [findInList] at h
    split_ifs at h with hpre
    · cases h
      simpa using hpre
    · rcases ho : findInList tl pat with _ | m
      · rw [ho] at h; cases h
      · rw [ho] at h
        cases h
        simpa using ih ho

theorem findInList_some_add_le {l pat : Str} {k : Nat} (hne : pat ≠ [])
    (h : findInList l pat = some k) : k + pat.length ≤ l.length := by
  induction l generalizing k with
  | nil =>
    rw [findInList] at h
    split_ifs at h with he
    · exact absurd (List.isEmpty_iff.mp he) hne
  | cons a tl ih =>
    rw [findInList] at h
    split_ifs at h with hpre
    · cases h
      have := (List.isPrefixOf_iff_prefix.mp hpre).length_le
      simpa using this
    · rcases ho : findInList tl pat with _ | m
      · rw [ho] at h; cases h
      · rw [ho] at h
        cases h
        have := ih ho
        simp only [List.length_cons]
        omega

theorem findInList_prefix_eq_zero {t pat : Str} (hne : pat ≠ []) :
    findInList t pat = some 0 ↔ pat.isPrefixOf t := by
  cases t with
  | nil =>
    simp only [findInList, List.isEmpty_iff]
    constructor
    · intro h; split_ifs at h with he; exact absurd he hne
    · intro h
      have := List.isPrefixOf_iff_prefix.mp h
      have : pat = [] := List.prefix_nil.mp this
      exact absurd this hne
  | cons a tl =>
    rw [findInList]
    split_ifs with hpre
    · simp [hpre]
    · constructor
      · intro h
        exfalso
        rcases ho : findInList tl pat with _ | m <;> rw [ho] at h <;>
          simp at h
      · intro h; exact absurd h hpre

theorem strFindFrom_zero_iff {t pat : Str} (hne : pat ≠ []) :
    strFindFrom t pat 0 = 0 ↔ pat.isPrefixOf t := by
  rw [strFindFrom, if_pos (Nat.zero_le _), List.drop_zero]
  rcases ho : findInList t pat with _ | m
  · rw [← findInList_prefix_eq_zero hne, ho]
    simp [NPOS]
  · rw [← findInList_prefix_eq_zero hne, ho]
    simp

theorem rfindInList_some {l pat : Str} {k : Nat} (hne : pat ≠ [])
    (h : rfindInList l pat = some k) :
    pat.isPrefixOf (l.drop k) ∧ k + pat.length ≤ l.length := by
  induction l generalizing k with
  | nil =>
    rw [rfindInList] at h
    split_ifs at h with he
    · exact absurd (List.isEmpty_iff.mp he) hne
  | cons a tl ih =>
    rw [rfindInList] at h
    rcases ho : rfindInList tl pat with _ | m <;> rw [ho] at h
    · split_ifs at h with hpre
      cases h
      refine ⟨by simpa using hpre, ?_⟩
      have := (List.isPrefixOf_iff_prefix.mp hpre).length_le
      simpa using this
    · cases h
      obtain ⟨h1, h2⟩ := ih ho
      exact ⟨by simpa using h1, by simp only [List.length_cons]; omega⟩

theorem rfindInList_ge {l pat : Str} {k : Nat} (hne : pat ≠ [])
    (hk : pat.isPrefixOf (l.drop k)) :
    ∃ m, rfindInList l pat = some m ∧ k ≤ m := by
  induction l generalizing k with
  | nil =>
    rw [List.drop_nil] at hk
    have := List.isPrefixOf_iff_prefix.mp hk
    exact absurd (List.prefix_nil.mp this) hne
  | cons a tl ih =>
    cases k with
    | zero =>
      rw [rfindInList]
      rcases ho : rfindInList tl pat with _ | m
      · rw [List.drop_zero] at hk
        exact ⟨0, by simp [hk], Nat.zero_le _⟩
      · exact ⟨m + 1, rfl, Nat.zero_le _⟩
    | succ j =>
      rw [List.drop_succ_cons] at hk
      obtain ⟨m, hm, hjm⟩ := ih hk
      rw [rfindInList, hm]
      exact ⟨m + 1, rfl, by omega⟩

theorem strRfind_last_iff {t pat : Str} (hne : pat ≠ [])
    (hlen : pat.length ≤ t.length) (hsz : t.length < SIZE_MOD) :
    strRfind t pat = t.length - pat.length ↔ pat.isSuffixOf t := by
  constructor
  · intro h
    rcases ho : rfindInList t pat with _ | m
    · rw [strRfind, ho] at h
      simp only [Option.getD_none] at h
      have : NPOS = t.length - pat.length := h
      have hp : 1 ≤ pat.length := by
        cases pat with
        | nil => exact absurd rfl hne
        | cons _ _ => simp
      rw [NPOS] at this
      rw [SIZE_MOD] at hsz
      omega
    · rw [strRfind, ho] at h
      simp only [Option.getD_some] at h
      subst h
      obtain ⟨h1, _⟩ := rfindInList_some hne ho
      have hdl : (t.drop (t.length - pat.length)).length = pat.length := by
        rw [List.length_drop]
        omega
      have heq : pat = t.drop (t.length - pat.length) :=
        (List.isPrefixOf_iff_prefix.mp h1).eq_of_length (by rw [hdl])
      rw [List.isSuffixOf_iff_suffix, heq]
      exact List.drop_suffix _ _
  · intro h
    have hs := List.isSuffixOf_iff_suffix.mp h
    obtain ⟨pre, hpre⟩ := hs
    have hlp : pre.length = t.length - pat.length := by
      have : pre.length + pat.length = t.length := by
        rw [← hpre]; simp
      omega
    have hdrop : t.drop (t.length - pat.length) = pat := by
      conv_lhs => rw [← hlp, ← hpre]
      exact List.drop_left pre pat
    have hocc : pat.isPrefixOf (t.drop (t.length - pat.length)) := by
      rw [hdrop]
      exact List.isPrefixOf_iff_prefix.mpr (List.prefix_refl pat)
    obtain ⟨m, hm, hkm⟩ := rfindInList_ge hne hocc
    obtain ⟨_, h2⟩ := rfindInList_some hne hm
    have : m = t.length - pat.length := by omega
    rw [strRfind, hm, Option.getD_some, this]

/-! ## C2: reference count and the unique SignedProperties reference -/

theorem Outcome.bind_ok_iff {ε α β : Type} {x : Outcome ε α}
    {f : α → Outcome ε β} {b : β} :
    x.bind f = .ok b ↔ ∃ a, x = .ok a ∧ f a = .ok b := by
  cases x <;> simp [Outcome.bind]

/-- The spec's description of a reference to `SignedProperties`: `Type`
attribute present, starting with `http://uri.etsi.org/01903` and ending
with `#SignedProperties`. -/
def specSigPropsRef (r : Reference) : Bool :=
  match r.type with
  | none => false
  | some t => ETSI_PAT.isPrefixOf t && SIGPROP_PAT.isSuffixOf t

/-- On `Type` strings shorter than `2^64` (every real `std::string`),
the source's find/rfind arithmetic agrees with the plain
prefix-and-suffix condition. -/
theorem isReferenceToSigProps_eq_spec (r : Reference)
    (hl : ∀ t, r.type = some t → t.length < SIZE_MOD) :
    isReferenceToSigProps r = specSigPropsRef r := by
  rcases ht : r.type with _ | t
  · simp [isReferenceToSigProps, specSigPropsRef, ht]
  · simp only [isReferenceToSigProps, specSigPropsRef, ht]
    by_cases hp : ETSI_PAT.isPrefixOf t = true
    · have h0 : strFindFrom t ETSI_PAT 0 = 0 :=
        (strFindFrom_zero_iff (by decide)).mpr hp
      have hlt : t.length < SIZE_MOD := hl t ht
      have hle : ETSI_PAT.length ≤ t.length :=
        (List.isPrefixOf_iff_prefix.mp hp).length_le
      have h25 : ETSI_PAT.length = 25 := by decide
      have h17 : SIGPROP_PAT.length = 17 := by decide
      have hple : SIGPROP_PAT.length ≤ t.length := by omega
      have hM : SIZE_MOD = 18446744073709551616 := by decide
      have hmod : (t.length + (SIZE_MOD - SIGPROP_PAT.length)) % SIZE_MOD =
          t.length - SIGPROP_PAT.length := by
        rw [h17, hM]
        rw [hM] at hlt
        omega
      have hiff := @strRfind_last_iff t SIGPROP_PAT (by decide) hple hlt
      rw [h0, hmod, hp]
      cases hs : SIGPROP_PAT.isSuffixOf t
      · have hne : ¬ strRfind t SIGPROP_PAT = t.length - SIGPROP_PAT.length := by
          intro hh
          have := hiff.mp hh
          rw [hs] at this
          exact Bool.noConfusion this
        simp [hne]
      · simp [hiff.mpr (by rw [hs])]
    · have h0 : ¬ strFindFrom t ETSI_PAT 0 = 0 := by
        rw [strFindFrom_zero_iff (by decide)]
        exact hp
      simp only [Bool.not_eq_true] at hp
      simp [h0, hp]

/-- A successful pass of the `checkReferences` loop sees exactly one
`SignedProperties` reference (zero if one was already seen). -/
theorem sigPropsLoop_ok_count (env : Env) (s : Sig) :
    ∀ (rs : List Reference) (got : Bool),
      sigPropsLoop env s rs got = .ok () →
      rs.countP (fun r => isReferenceToSigProps r) = if got then 0 else 1 := by
  intro rs
  induction rs with
  | nil =>
    intro got h
    rw [sigPropsLoop] at h
    cases got
    · exact absurd h (by simp)
    · simp
  | cons r rest ih =>
    intro got h
    rw [sigPropsLoop] at h
    by_cases hr : isReferenceToSigProps r = true
    · rw [if_pos hr] at h
      cases got
      · rw [if_neg (by simp)] at h
        rw [Outcome.bind_ok_iff] at h
        obtain ⟨a, _, h2⟩ := h
        have := ih true h2
        simp only [if_pos rfl] at this
        simp [List.countP_cons, hr, this]
      · rw [if_pos rfl] at h
        exact absurd h (by simp)
    · rw [if_neg hr] at h
      have := ih got h
      simp only [Bool.not_eq_true] at hr
      simp [List.countP_cons, hr, this]

/-- C2: `checkReferences` succeeds only if the number of `SignedInfo`
references equals `documentCount() + 1` and exactly one reference has a
present `Type` attribute starting with `http://uri.etsi.org/01903` and
ending with `#SignedProperties` (none, or two or more, is a failure). -/
theorem checkReferences_spec (env : Env) (ci : ContainerInfo) (s : Sig)
    (hl : ∀ r ∈ s.sign.signedInfo.reference, ∀ t, r.type = some t →
      t.length < SIZE_MOD)
    (h : checkReferences env ci s = .ok ()) :
    s.sign.signedInfo.reference.length = ci.documentCount + 1 ∧
    (s.sign.signedInfo.reference.filter specSigPropsRef).length = 1 := by
  rw [checkReferences] at h
  split_ifs at h with hc
  refine ⟨by omega, ?_⟩
  rw [Outcome.bind_ok_iff] at h
  obtain ⟨a, h1, _⟩ := h
  cases a
  have hcount := sigPropsLoop_ok_count env s _ false h1
  simp only [Bool.false_eq_true, if_false] at hcount
  rw [← List.countP_eq_length_filter, ← hcount]
  exact List.countP_congr fun r hr => by
    rw [isReferenceToSigProps_eq_spec r (hl r hr)]

theorem checkReferences_spec_witness :
    sigW.sign.signedInfo.reference.length = ciW.documentCount + 1 ∧
    (sigW.sign.signedInfo.reference.filter specSigPropsRef).length = 1 :=
  checkReferences_spec envW ciW sigW (by decide) (by decide)

/-! ## C8: issuer-CN extraction and the OCSP-configuration lookups -/

theorem comma_take_some {l : Str} {m : Nat}
    (h : findInList l [','] = some m) :
    l.take m = l.takeWhile (fun ch => ch ≠ ',') := by
  induction l generalizing m with
  | nil => rw [findInList] at h; simp at h
  | cons a tl ih =>
    rw [findInList] at h
    by_cases ha : a = ','
    · rw [if_pos (by simp [List.isPrefixOf, ha])] at h
      rw [Option.some.injEq] at h
      subst h
      simp [List.takeWhile_cons, ha]
    · rw [if_neg (by simp [List.isPrefixOf]; exact fun hh => ha hh.symm)] at h
      rcases ho : findInList tl [','] with _ | m' <;> rw [ho] at h
      · rw [show Option.map (fun x => x + 1) (none : Option Nat) = none
          from rfl] at h
        cases h
      · rw [show Option.map (fun x => x + 1) (some m') = some (m' + 1)
          from rfl, Option.some.injEq] at h
        subst h
        simp [List.takeWhile_cons, ha, ih ho]

theorem comma_none_takeWhile {l : Str} (h : findInList l [','] = none) :
    l.takeWhile (fun ch => ch ≠ ',') = l := by
  induction l with
  | nil => simp
  | cons a tl ih =>
    rw [findInList] at h
    by_cases ha : a = ','
    · rw [if_pos (by simp [List.isPrefixOf, ha])] at h
      cases h
    · rw [if_neg (by simp [List.isPrefixOf]; exact fun hh => ha hh.symm)] at h
      rcases ho : findInList tl [','] with _ | m' <;> rw [ho] at h
      · rw [List.takeWhile_cons, if_pos (by simp [ha]), ih ho]
      · rw [show Option.map (fun x => x + 1) (some m') = some (m' + 1)
          from rfl] at h
        cases h

theorem strFindFrom_eq_of_some {s pat : Str} {start k : Nat}
    (hs : start ≤ s.length) (h : findInList (s.drop start) pat = some k) :
    strFindFrom s pat start = start + k := by
  simp [strFindFrom, hs, h]

theorem strFindFrom_eq_of_none {s pat : Str} {start : Nat}
    (hs : start ≤ s.length) (h : findInList (s.drop start) pat = none) :
    strFindFrom s pat start = NPOS := by
  simp [strFindFrom, hs, h]

/-- The spec's issuer-CN extraction: the substring of the issuer DN
starting right after the first occurrence of `CN=` and ending before
the first `,` that follows it (the rest of the string when no comma
follows). -/
def specIssuerCN (issuer : Str) : Str :=
  (issuer.drop (strFindFrom issuer CN_PAT 0 + 3)).takeWhile
    (fun ch => ch ≠ ',')

/-- C8: `prepare` extracts the issuer CN as the substring of the issuer
DN after the first `CN=` up to the first following `,`; it fails with
`NoOCSPResponder` when the configuration has no `OCSPConf` entry for
that CN (regardless of the certificate store), fails with
`IssuerUnknown` only after that lookup succeeds when the store lacks the
issuer certificate, and otherwise builds the OCSP client from the
configuration entry. -/
theorem prepare_spec (env : Env) (conf : Conf) (s : Sig) (cert : List Nat)
    (hc : getSigningCertificate s.sign = .ok cert)
    (hfound : strFindFrom (env.getIssuerName cert) CN_PAT 0 ≠ NPOS)
    (hlen : (env.getIssuerName cert).length + 3 < SIZE_MOD) :
    (conf.hasOCSPConf (specIssuerCN (env.getIssuerName cert)) = false →
      prepare env conf s = .thrown .noOCSPResponder) ∧
    (conf.hasOCSPConf (specIssuerCN (env.getIssuerName cert)) = true →
      conf.storeGetCert (env.getIssuerNameAsn1 cert) = none →
      prepare env conf s = .thrown .issuerUnknown) ∧
    (∀ ic, conf.hasOCSPConf (specIssuerCN (env.getIssuerName cert)) = true →
      conf.storeGetCert (env.getIssuerNameAsn1 cert) = some ic →
      prepare env conf s = .ok
        { url := (conf.getOCSPConf (specIssuerCN (env.getIssuerName cert))).url
          skew := (conf.getOCSPConf (specIssuerCN (env.getIssuerName cert))).skew
          maxAge :=
            (conf.getOCSPConf (specIssuerCN (env.getIssuerName cert))).maxAge
          ocspCerts := env.loadX509Stack
            (conf.getOCSPConf (specIssuerCN (env.getIssuerName cert))).cert
          signingCert := cert, issuerX509 := ic }) := by
  have hk : ∃ k, findInList (env.getIssuerName cert) CN_PAT = some k := by
    rcases ho : findInList (env.getIssuerName cert) CN_PAT with _ | k
    · exfalso
      apply hfound
      rw [strFindFrom, if_pos (Nat.zero_le _), List.drop_zero, ho]
    · exact ⟨k, rfl⟩
  obtain ⟨k, hk⟩ := hk
  have hfval : strFindFrom (env.getIssuerName cert) CN_PAT 0 = k := by
    have := @strFindFrom_eq_of_some (env.getIssuerName cert) CN_PAT 0 k
      (Nat.zero_le _) (by rw [List.drop_zero]; exact hk)
    simpa using this
  have hk3 : k + 3 ≤ (env.getIssuerName cert).length := by
    have := findInList_some_add_le (by decide) hk
    have h3 : CN_PAT.length = 3 := by decide
    omega
  have hN : NPOS = 18446744073709551615 := by decide
  have hM : SIZE_MOD = 18446744073709551616 := by decide
  have hmod : (strFindFrom (env.getIssuerName cert) CN_PAT 0 + 3) % SIZE_MOD =
      k + 3 := by
    rw [hfval]
    exact Nat.mod_eq_of_lt (by omega)
  have hsub : substrC (env.getIssuerName cert) (k + 3)
      (strFindFrom (env.getIssuerName cert) (String.data ",") (k + 3) -
        (k + 3)) = specIssuerCN (env.getIssuerName cert) := by
    rw [specIssuerCN, hfval, show String.data "," = [','] from rfl]
    rcases ho : findInList ((env.getIssuerName cert).drop (k + 3)) [','] with
      _ | m
    · rw [strFindFrom_eq_of_none hk3 ho, substrC, comma_none_takeWhile ho]
      apply List.take_of_length_le
      rw [List.length_drop]
      omega
    · rw [strFindFrom_eq_of_some hk3 ho, substrC,
        show k + 3 + m - (k + 3) = m from by omega]
      exact comma_take_some ho
  have hpre : prepare env conf s =
      (if conf.hasOCSPConf (specIssuerCN (env.getIssuerName cert)) = false
       then .thrown .noOCSPResponder
       else
        match conf.storeGetCert (env.getIssuerNameAsn1 cert) with
        | none => .thrown .issuerUnknown
        | some issuerX509 =>
          .ok { url := (conf.getOCSPConf
                  (specIssuerCN (env.getIssuerName cert))).url
                skew := (conf.getOCSPConf
                  (specIssuerCN (env.getIssuerName cert))).skew
                maxAge := (conf.getOCSPConf
                  (specIssuerCN (env.getIssuerName cert))).maxAge
                ocspCerts := env.loadX509Stack (conf.getOCSPConf
                  (specIssuerCN (env.getIssuerName cert))).cert
                signingCert := cert, issuerX509 := issuerX509 }) := by
    simp only [prepare, hc, Outcome.bind, hmod]
    rw [if_neg (by omega), hsub]
  refine ⟨fun hno => ?_, fun hyes hnone => ?_, fun ic hyes hsome => ?_⟩
  · rw [hpre, if_pos hno]
  · rw [hpre, if_neg (by rw [hyes]; simp), hnone]
  · rw [hpre, if_neg (by rw [hyes]; simp), hsome]

theorem prepare_spec_witness :
    prepare envW confW sigW =
      .ok { url := "http://ocsp".data, skew := 1, maxAge := 2,
            ocspCerts := [[1]], signingCert := [5, 5], issuerX509 := [4] } :=
  (prepare_spec envW confW sigW [5, 5] (by decide) (by decide)
    (by decide)).2.2 [4] (by decide) (by decide)

/-! ## C7: `SignaturePolicyIdentifier` handling in the two dialects -/

/-- Replace the `SignaturePolicyIdentifier` of a v1.1.1
`SignedProperties` subtree. -/
def setPolicySP (p : PolicyId) (sp : SignedProps111) : SignedProps111 :=
  ⟨⟨sp.signedSignatureProperties.signingCertificate, p⟩⟩

def setPolicyQP (p : PolicyId) (qp : QP111) : QP111 :=
  { qp with signedProperties := qp.signedProperties.map (setPolicySP p) }

def setPolicyObj (p : PolicyId) (o : ObjectType) : ObjectType :=
  { o with
    qualifyingProperties1 := o.qualifyingProperties1.map (setPolicyQP p) }

def setPolicy111St (st : SignatureType) (p : PolicyId) : SignatureType :=
  { st with object := st.object.map (setPolicyObj p) }

/-- Replace every v1.1.1 `SignaturePolicyIdentifier` of a signature. -/
def setPolicy111 (s : Sig) (p : PolicyId) : Sig :=
  { s with sign := setPolicy111St s.sign p }

/-- A `SignaturePolicyIdentifier` is present somewhere in the v1.3.2
property tree. -/
def policyPresent132 (st : SignatureType) : Prop :=
  ∃ o ∈ st.object, ∃ qp ∈ o.qualifyingProperties, ∃ sp,
    qp.signedProperties = some sp ∧
    (sp.signedSignatureProperties.signaturePolicyIdentifier).isSome = true

theorem checkSSP111_setPolicy (st : SignatureType) (p : PolicyId) :
    checkSignedSignatureProperties111 (setPolicy111St st p) =
      checkSignedSignatureProperties111 st := by
  cases hobj : st.object with
  | nil => simp [setPolicy111St, checkSignedSignatureProperties111, hobj]
  | cons o rest =>
    cases rest with
    | cons o2 t =>
      simp [setPolicy111St, checkSignedSignatureProperties111, hobj]
    | nil =>
      cases hq : o.qualifyingProperties1 with
      | nil =>
        simp [setPolicy111St, setPolicyObj, checkSignedSignatureProperties111,
          hobj, hq]
      | cons qp rest1 =>
        cases rest1 with
        | cons qp2 t1 =>
          simp [setPolicy111St, setPolicyObj, checkSignedSignatureProperties111,
            hobj, hq]
        | nil =>
          cases hsp : qp.signedProperties with
          | none =>
            simp [setPolicy111St, setPolicyObj, setPolicyQP,
              checkSignedSignatureProperties111, hobj, hq, hsp]
          | some sp =>
            simp [setPolicy111St, setPolicyObj, setPolicyQP,
              checkSignedSignatureProperties111, hobj, hq, hsp]

theorem setPolicy111St_object (st : SignatureType) (p : PolicyId) :
    (setPolicy111St st p).object = st.object.map (setPolicyObj p) := rfl

theorem setPolicy111St_id (st : SignatureType) (p : PolicyId) :
    (setPolicy111St st p).id = st.id := rfl

theorem setPolicyObj_qp1 (p : PolicyId) (o : ObjectType) :
    (setPolicyObj p o).qualifyingProperties1 =
      o.qualifyingProperties1.map (setPolicyQP p) := rfl

theorem setPolicyQP_target (p : PolicyId) (qp : QP111) :
    (setPolicyQP p qp).target = qp.target := rfl

theorem setPolicyQP_up (p : PolicyId) (qp : QP111) :
    (setPolicyQP p qp).unsignedProperties = qp.unsignedProperties := rfl

theorem checkQP111_setPolicy (st : SignatureType) (p : PolicyId) :
    checkQualifyingProperties111 (setPolicy111St st p) =
      checkQualifyingProperties111 st := by
  cases hobj : st.object with
  | nil =>
    simp [checkQualifyingProperties111, setPolicy111St_object, hobj]
  | cons o rest =>
    rcases hq : o.qualifyingProperties1 with _ | ⟨qp, rest1⟩
    · simp [checkQualifyingProperties111, setPolicy111St_object,
        setPolicyObj_qp1, hobj, hq]
    rcases rest1 with _ | ⟨qp2, t1⟩
    · rcases hid : st.id with _ | idv
      · simp [checkQualifyingProperties111, setPolicy111St_object,
          setPolicy111St_id, setPolicyObj_qp1, setPolicyQP_target, hobj, hq,
          hid]
      · have hssp := checkSSP111_setPolicy st p
        by_cases ht : qp.target = '#' :: idv
        · simp [checkQualifyingProperties111, setPolicy111St_object,
            setPolicy111St_id, setPolicyObj_qp1, setPolicyQP_target,
            setPolicyQP_up, hobj, hq, hid, ht, hssp]
        · simp [checkQualifyingProperties111, setPolicy111St_object,
            setPolicy111St_id, setPolicyObj_qp1, setPolicyQP_target, hobj,
            hq, hid, ht]
    · have hlen : ¬ (qp :: qp2 :: t1).length = 1 := by
        simp only [List.length_cons]
        omega
      simp [checkQualifyingProperties111, setPolicy111St_object,
        setPolicyObj_qp1, hobj, hq, hlen]

/-- C7: a present `SignaturePolicyIdentifier` prevents
`checkQualifyingProperties` (through `checkSignedSignatureProperties`)
from succeeding for every XAdES v1.3.2 signature, while for XAdES
v1.1.1 signatures the element is read but never enforced: replacing its
value never changes the outcome of `checkQualifyingProperties`. -/
theorem signaturePolicy_spec :
    (∀ s : Sig, s.dialect = .v132 → policyPresent132 s.sign →
      checkQualifyingProperties s ≠ .ok ()) ∧
    (∀ (s : Sig) (p : PolicyId), s.dialect = .v111 →
      checkQualifyingProperties (setPolicy111 s p) =
        checkQualifyingProperties s) := by
  constructor
  · intro s hd hpol hok
    obtain ⟨o, ho, qp, hqp, sp, hsp, hpolv⟩ := hpol
    have hok1 : checkQualifyingProperties132 s.sign = .ok () := by
      rw [checkQualifyingProperties, hd] at hok
      exact hok
    rcases hobj : s.sign.object with _ | ⟨o0, rest⟩
    · rw [hobj] at ho
      simp at ho
    rcases rest with _ | ⟨o1, rest2⟩
    · -- object = [o0]
      rw [hobj, List.mem_singleton] at ho
      subst ho
      rcases hq0 : o.qualifyingProperties with _ | ⟨qp0, qrest⟩
      · rw [hq0] at hqp
        simp at hqp
      rcases qrest with _ | ⟨qp1, qrest2⟩
      · -- qualifyingProperties = [qp0]
        rw [hq0, List.mem_singleton] at hqp
        subst hqp
        have hssp : checkSignedSignatureProperties132 s.sign =
            .thrown .signaturePolicyInvalid := by
          simp only [checkSignedSignatureProperties132, hobj, hq0, hsp]
          rcases hpv : sp.signedSignatureProperties.signaturePolicyIdentifier
            with _ | pv
          · rw [hpv] at hpolv
            exact Bool.noConfusion hpolv
          · simp
        simp only [checkQualifyingProperties132, hobj, hq0] at hok1
        split_ifs at hok1 with hl
        rcases hid : s.sign.id with _ | idv <;> rw [hid] at hok1 <;>
          simp only [] at hok1
        · exact absurd hok1 (by simp)
        · split_ifs at hok1 with ht
          rw [Outcome.bind_ok_iff] at hok1
          obtain ⟨a, ha2, _⟩ := hok1
          rw [hssp] at ha2
          exact absurd ha2 (by simp)
      · -- two or more QualifyingProperties
        simp only [checkQualifyingProperties132, hobj, hq0] at hok1
        split_ifs at hok1 with hl
        exact hl (by simp only [List.length_cons]; omega)
    · -- two or more Objects: checkSignedSignatureProperties132 throws
      have hssp2 : checkSignedSignatureProperties132 s.sign =
          .thrown .objectMultiple := by
        simp only [checkSignedSignatureProperties132, hobj]
      simp only [checkQualifyingProperties132, hobj] at hok1
      split_ifs at hok1 with hl
      rcases hq0 : o0.qualifyingProperties with _ | ⟨qp0, qrest⟩ <;>
        rw [hq0] at hok1 <;> simp only [] at hok1
      · exact absurd hok1 (by simp)
      · rcases hid : s.sign.id with _ | idv <;> rw [hid] at hok1 <;>
          simp only [] at hok1
        · exact absurd hok1 (by simp)
        · split_ifs at hok1 with ht
          rw [Outcome.bind_ok_iff] at hok1
          obtain ⟨a, ha2, _⟩ := hok1
          rw [hssp2] at ha2
          exact absurd ha2 (by simp)
  · intro s p hd
    have hd2 : (setPolicy111 s p).dialect = Dialect.v111 := hd
    rw [checkQualifyingProperties, checkQualifyingProperties, hd, hd2]
    exact checkQP111_setPolicy s.sign p

/-- A v1.3.2 signature carrying a `SignaturePolicyIdentifier`. -/
def qp7 : QP132 :=
  { target := "#S0".data
    signedProperties :=
      some ⟨{ signingCertificate := none,
              signaturePolicyIdentifier := some 5 }⟩
    unsignedProperties := none }

def st7 : SignatureType :=
  { stW with object := [⟨[qp7], []⟩] }

def sig7 : Sig := ⟨Dialect.v132, st7, [60, 63]⟩

theorem signaturePolicy_spec_witness :
    checkQualifyingProperties sig7 ≠ .ok () ∧
    checkQualifyingProperties (setPolicy111 sigW 9) =
      checkQualifyingProperties sigW := by
  constructor
  · exact signaturePolicy_spec.1 sig7 rfl
      ⟨⟨[qp7], []⟩, by decide, qp7, by decide,
        ⟨{ signingCertificate := none, signaturePolicyIdentifier := some 5 }⟩,
        rfl, rfl⟩
  · exact signaturePolicy_spec.2 sigW 9 rfl

/-! ## C5: `getOCSPResponseValue` and the unguarded `OCSPValues` access -/

/-- The corrected description of `XAdES111Signature::getOCSPResponseValue`
on a parsed signature with one `QualifyingProperties1` block: the
`UnsignedProperties`, `UnsignedSignatureProperties` and
`RevocationValues` steps throw `MissingElement`-kind errors when absent,
but an absent `OCSPValues` is dereferenced unguarded (undefined
behaviour), as is `EncapsulatedOCSPValue[0]` on an empty sequence. -/
def specOCSPResponseValue111 (qp : QP111) : Outcome Err (List Nat) :=
  match qp.unsignedProperties with
  | none => .thrown .missingUnsignedProps
  | some up =>
    match up.unsignedSignatureProperties with
    | none => .thrown .missingUnsignedSigProps
    | some usp =>
      match usp.revocationValues with
      | none => .thrown .missingRevocationValues
      | some rv =>
        match rv.ocspValues with
        | none => .ub
        | some ov =>
          match ov.encapsulatedOCSPValue with
          | [] => .ub
          | resp :: _ => .ok resp

/-- The corrected description of
`XAdES132Signature::getOCSPResponseValue` (same shape; the
`RevocationValues` sequence must be non-empty). -/
def specOCSPResponseValue132 (qp : QP132) : Outcome Err (List Nat) :=
  match qp.unsignedProperties with
  | none => .thrown .missingUnsignedProps
  | some up =>
    match up.unsignedSignatureProperties with
    | none => .thrown .missingUnsignedSigProps
    | some usp =>
      match usp.revocationValues with
      | [] => .thrown .missingRevocationValues
      | rv :: _ =>
        match rv.ocspValues with
        | none => .ub
        | some ov =>
          match ov.encapsulatedOCSPValue with
          | [] => .ub
          | resp :: _ => .ok resp

/-- A parsed v1.1.1 signature whose `RevocationValues` is present but
whose `OCSPValues` child is absent (schema-valid: `OCSPValues` is
optional inside `RevocationValues`). -/
def qp5 : QP111 :=
  { target := "#S0".data
    signedProperties := some ⟨sspW⟩
    unsignedProperties :=
      some { unsignedSignatureProperties :=
               some { revocationValues := some { ocspValues := none }
                      completeRevocationRefs := none }
             unsignedDataObjectProperties := none } }

def st5 : SignatureType := { stW with object := [⟨[], [qp5]⟩] }

def sig5 : Sig := ⟨Dialect.v111, st5, [7]⟩

/-- C5 counterexample: on a parsed signature whose `OCSPValues` element
is absent, `getOCSPResponseValue` neither returns bytes nor throws: it
dereferences the absent optional (undefined behaviour). -/
theorem getOCSPResponseValue_cex :
    parse st5 [7] = .ok sig5 ∧
    getOCSPResponseValue sig5 = .ub ∧
    (∀ b, getOCSPResponseValue sig5 ≠ .ok b) ∧
    (∀ e, getOCSPResponseValue sig5 ≠ .thrown e) := by
  refine ⟨by decide, by decide, ?_, ?_⟩ <;>
    · intro x hx
      rw [(by decide : getOCSPResponseValue sig5 = .ub)] at hx
      exact Outcome.noConfusion hx

/-- C5 (amended): for every parsed signature, `getOCSPResponseValue`
behaves exactly as the per-dialect corrected description on the unique
`QualifyingProperties(1)` block: it guards `UnsignedProperties`,
`UnsignedSignatureProperties` and `RevocationValues` with
`MissingElement`-kind throws, dereferences an absent `OCSPValues`
unguarded, and returns the first `EncapsulatedOCSPValue` otherwise (the
parse invariants make the `object()[0]` / `qualifyingProperties(1)[0]`
indexings safe). -/
theorem getOCSPResponseValue_amended (st : SignatureType) (xml : List Nat)
    (s : Sig) (o : ObjectType)
    (hp : parse st xml = .ok s) (ho : st.object = [o]) :
    (∀ qp, o.qualifyingProperties1 = [qp] →
      getOCSPResponseValue s = specOCSPResponseValue111 qp) ∧
    (∀ qp, o.qualifyingProperties = [qp] →
      getOCSPResponseValue s = specOCSPResponseValue132 qp) := by
  obtain ⟨o2, hobj2, hsign, _, hcase⟩ := parse_ok_cases hp
  rw [ho] at hobj2
  obtain rfl : o = o2 := by injection hobj2
  constructor
  · intro qp hq
    rcases hcase with ⟨hd, _, _⟩ | ⟨_, _, hq1⟩
    · rcases hup : qp.unsignedProperties with _ | up
      · simp [getOCSPResponseValue, hd, getOCSPResponseValue111, hsign,
          unsignSigProps111, ho, hq, hup, specOCSPResponseValue111,
          Outcome.bind]
      rcases husp : up.unsignedSignatureProperties with _ | usp
      · simp [getOCSPResponseValue, hd, getOCSPResponseValue111, hsign,
          unsignSigProps111, ho, hq, hup, husp, specOCSPResponseValue111,
          Outcome.bind]
      rcases hrv : usp.revocationValues with _ | rv
      · simp [getOCSPResponseValue, hd, getOCSPResponseValue111, hsign,
          unsignSigProps111, ho, hq, hup, husp, hrv,
          specOCSPResponseValue111, Outcome.bind]
      rcases hov : rv.ocspValues with _ | ov
      · simp [getOCSPResponseValue, hd, getOCSPResponseValue111, hsign,
          unsignSigProps111, ho, hq, hup, husp, hrv, hov,
          specOCSPResponseValue111, Outcome.bind]
      rcases henc : ov.encapsulatedOCSPValue with _ | ⟨b, brest⟩ <;>
        simp [getOCSPResponseValue, hd, getOCSPResponseValue111, hsign,
          unsignSigProps111, ho, hq, hup, husp, hrv, hov, henc,
          specOCSPResponseValue111, Outcome.bind]
    · rw [hq1] at hq
      exact absurd hq.symm (List.cons_ne_nil qp [])
  · intro qp hq
    rcases hcase with ⟨_, hq2, _⟩ | ⟨hd, _, _⟩
    · rw [hq2] at hq
      exact absurd hq.symm (List.cons_ne_nil qp [])
    · rcases hup : qp.unsignedProperties with _ | up
      · simp [getOCSPResponseValue, hd, getOCSPResponseValue132, hsign,
          unsignSigProps132, ho, hq, hup, specOCSPResponseValue132,
          Outcome.bind]
      rcases husp : up.unsignedSignatureProperties with _ | usp
      · simp [getOCSPResponseValue, hd, getOCSPResponseValue132, hsign,
          unsignSigProps132, ho, hq, hup, husp, specOCSPResponseValue132,
          Outcome.bind]
      rcases hrv : usp.revocationValues with _ | ⟨rv, rvrest⟩
      · simp [getOCSPResponseValue, hd, getOCSPResponseValue132, hsign,
          unsignSigProps132, ho, hq, hup, husp, hrv,
          specOCSPResponseValue132, Outcome.bind]
      rcases hov : rv.ocspValues with _ | ov
      · simp [getOCSPResponseValue, hd, getOCSPResponseValue132, hsign,
          unsignSigProps132, ho, hq, hup, husp, hrv, hov,
          specOCSPResponseValue132, Outcome.bind]
      rcases henc : ov.encapsulatedOCSPValue with _ | ⟨b, brest⟩ <;>
        simp [getOCSPResponseValue, hd, getOCSPResponseValue132, hsign,
          unsignSigProps132, ho, hq, hup, husp, hrv, hov, henc,
          specOCSPResponseValue132, Outcome.bind]

theorem getOCSPResponseValue_amended_witness :
    getOCSPResponseValue sigW = specOCSPResponseValue111 qp1W := by
  have h := getOCSPResponseValue_amended stW [60, 63] sigW ⟨[], [qp1W]⟩
    (by decide) (by decide)
  exact h.1 qp1W (by decide)

end bdoc
